import Mathlib

/-!
Shallow embedding of the ETL notebook `project_play.ipynb`.

The notebook reads JSON song-metadata and activity-log files, derives the
star-schema tables `songs`, `artists`, `users`, `time` and `songplays` with
Spark SQL, and writes each table back as a partitioned parquet dataset.

The embedding models:
* a JSON record of each of the two source schemas as a structure of
  nullable fields (`Option`);  JSON numeric scalars that the pipeline only
  ever projects (duration, latitude, longitude) are carried as `Option Int`,
  since no arithmetic is performed on them;
* each SQL statement as a pure function on lists of records, with SQL
  three-valued equality made explicit (a comparison involving NULL never
  holds, so such rows are rejected by WHERE clauses and join conditions);
* the Python UDFs registered for the `time` table as pure integer
  functions; `datetime.fromtimestamp` converts to *local* calendar time, so
  every UDF takes an explicit timezone offset `off` (seconds east of UTC);
  a Python UDF applied to a SQL NULL receives `None`, and `int(None)` /
  `datetime.fromtimestamp(None/1000.0)` raise, failing the query;
* the engine catalog (persistent tables created by `CREATE TABLE`, which
  errors when the table already exists, and temp views, which
  `createOrReplaceTempView` silently replaces) and the object storage
  (one slot per parquet output location, overwritten on write) as explicit
  state threaded through `process_song_data`, `process_log_data` and the
  driver; `spark.read.json` on an input set with no data rows raises an
  AnalysisException (no schema can be inferred), aborting the step before
  any view registration or write.
-/

/-- One record of the song-metadata JSON schema. -/
structure SongRecord where
  song_id : Option String
  title : Option String
  artist_id : Option String
  year : Option Int
  duration : Option Int
  artist_name : Option String
  artist_location : Option String
  artist_latitude : Option Int
  artist_longitude : Option Int
deriving DecidableEq

/-- One record of the activity-log JSON schema. -/
structure LogRecord where
  userId : Option String
  firstName : Option String
  lastName : Option String
  gender : Option String
  level : Option String
  page : Option String
  ts : Option Int
  sessionId : Option Int
  userAgent : Option String
  artist : Option String
deriving DecidableEq

/-- Row of the `songs` table: SELECT song_id, title, artist_id, year, duration. -/
structure SongRow where
  song_id : Option String
  title : Option String
  artist_id : Option String
  year : Option Int
  duration : Option Int
deriving DecidableEq

/-- Row of the `artists` table: SELECT artist_id, artist_name AS name,
artist_location AS location, artist_latitude AS latitude,
artist_longitude AS longitude. -/
structure ArtistRow where
  artist_id : Option String
  name : Option String
  location : Option String
  latitude : Option Int
  longitude : Option Int
deriving DecidableEq

/-- Row of the `users` table: SELECT userId AS user_id, firstName AS
first_name, lastName AS last_name, gender, level. -/
structure UserRow where
  user_id : Option String
  first_name : Option String
  last_name : Option String
  gender : Option String
  level : Option String
deriving DecidableEq

/-- Row of the `time` table.  Every column is produced by a UDF applied to
the non-null `ts`, so no column is nullable. -/
structure TimeRow where
  start_time : Int
  hour : Int
  day : Int
  week : Int
  month : Int
  year : Int
  weekday : Int
deriving DecidableEq

/-- Row of the `songplays` fact table. -/
structure SongplayRow where
  start_time : Option Int
  year : Int
  month : Int
  user_id : Option String
  level : Option String
  song_id : Option String
  artist_id : Option String
  session_id : Option Int
  location : Option String
  user_agent : Option String
deriving DecidableEq

/-! ### The Python time UDFs

`spark.udf.register("get_timestamp", lambda x: int(x))` and the six
`datetime.fromtimestamp(x/1000.0)` component extractors.  `fromtimestamp`
produces a *local* calendar time; the ambient timezone is modelled as an
offset `off` in seconds east of UTC.  `x/1000.0` keeps fractional seconds,
which never affect any of the extracted components beyond the floor, so the
embedding works with `⌊x / 1000⌋` seconds. -/

/-- Whole seconds of the epoch instant `x` milliseconds, rounding toward
minus infinity as real division followed by calendar floor does. -/
def pySeconds (x : Int) : Int := Int.fdiv x 1000

/-- Seconds-since-epoch of the local clock reading at instant `x` ms, for a
timezone `off` seconds east of UTC. -/
def localSeconds (off x : Int) : Int := pySeconds x + off

/-- Local calendar day as a count of days since 1970-01-01. -/
def localDays (off x : Int) : Int := Int.fdiv (localSeconds off x) 86400

/-- Civil date (year, month, day) of a day count since 1970-01-01, by the
standard proleptic-Gregorian conversion. -/
def civilFromDays (z : Int) : Int × Int × Int :=
  let z2 := z + 719468
  let era := Int.fdiv z2 146097
  let doe := z2 - era * 146097
  let yoe := Int.fdiv (doe - Int.fdiv doe 1460 + Int.fdiv doe 36524 - Int.fdiv doe 146096) 365
  let y := yoe + era * 400
  let doy := doe - (365 * yoe + Int.fdiv yoe 4 - Int.fdiv yoe 100)
  let mp := Int.fdiv (5 * doy + 2) 153
  let d := doy - Int.fdiv (153 * mp + 2) 5 + 1
  let m := mp + (if mp < 10 then 3 else -9)
  (y + (if m ≤ 2 then 1 else 0), m, d)

/-- The UDF `get_timestamp`: `lambda x: int(x)` on the integral `ts`. -/
def get_timestamp (x : Int) : Int := x

/-- The UDF `get_hour`: `datetime.fromtimestamp(x/1000.0).hour`. -/
def get_hour (off x : Int) : Int := Int.fdiv (Int.emod (localSeconds off x) 86400) 3600

/-- The UDF `get_day`: `datetime.fromtimestamp(x/1000.0).day`. -/
def get_day (off x : Int) : Int := (civilFromDays (localDays off x)).2.2

/-- The UDF `get_month`: `datetime.fromtimestamp(x/1000.0).month`. -/
def get_month (off x : Int) : Int := (civilFromDays (localDays off x)).2.1

/-- The UDF `get_year`: `datetime.fromtimestamp(x/1000.0).year`. -/
def get_year (off x : Int) : Int := (civilFromDays (localDays off x)).1

/-- The UDF `get_weekday`: `datetime.fromtimestamp(x/1000.0).weekday()`,
0 = Monday … 6 = Sunday (1970-01-01 was a Thursday, index 3). -/
def get_weekday (off x : Int) : Int := Int.emod (localDays off x + 3) 7

/-- Leap-year test of the Gregorian calendar. -/
def isLeapYear (y : Int) : Bool := (y.emod 4 == 0 && y.emod 100 != 0) || y.emod 400 == 0

/-- Days in the months before month `m` of year `y`. -/
def daysBeforeMonth (y m : Int) : Int :=
  let feb : Int := if isLeapYear y then 29 else 28
  if m ≤ 1 then 0
  else if m = 2 then 31
  else if m = 3 then 31 + feb
  else if m = 4 then 62 + feb
  else if m = 5 then 92 + feb
  else if m = 6 then 123 + feb
  else if m = 7 then 153 + feb
  else if m = 8 then 184 + feb
  else if m = 9 then 215 + feb
  else if m = 10 then 245 + feb
  else if m = 11 then 276 + feb
  else 306 + feb

/-- Number of ISO weeks in year `y` (52 or 53). -/
def isoWeeksInYear (y : Int) : Int :=
  let p := fun (v : Int) => Int.emod (v + Int.fdiv v 4 - Int.fdiv v 100 + Int.fdiv v 400) 7
  if p y = 4 ∨ p (y - 1) = 3 then 53 else 52

/-- ISO 8601 week number of the date with year `y`, ordinal day `ord`
(1-based) and ISO weekday `wd` (Monday = 1 … Sunday = 7). -/
def isoWeekOf (y ord wd : Int) : Int :=
  let w := Int.fdiv (ord - wd + 10) 7
  if w < 1 then isoWeeksInYear (y - 1)
  else if isoWeeksInYear y < w then 1
  else w

/-- The UDF `get_week`: `datetime.fromtimestamp(x/1000.0).isocalendar().week`. -/
def get_week (off x : Int) : Int :=
  let c := civilFromDays (localDays off x)
  isoWeekOf c.1 (daysBeforeMonth c.1 c.2.1 + c.2.2) (get_weekday off x + 1)

/-! ### Input file discovery

`process_song_data` reads `input_data + 'song_data'` with
`option("recursiveFileLookup", "true")`, so every file at any depth below
`song_data/` is read.  `process_log_data` reads the glob
`input_data + '/logs/*.json'`, which matches only files directly inside
`logs/` whose name ends in `.json`.  Paths are modelled as component lists
relative to `input_data`. -/

/-- One song-metadata input file. -/
structure SongFile where
  path : List String
  rows : List SongRecord
deriving DecidableEq

/-- One activity-log input file. -/
structure LogFile where
  path : List String
  rows : List LogRecord
deriving DecidableEq

/-- Recursive lookup under `song_data/`: any file at depth ≥ 1 below it. -/
def underSongData : List String → Bool
  | "song_data" :: _ :: _ => true
  | _ => false

/-- The glob `logs/*.json`: exactly the files directly inside `logs/` whose
name ends in `.json` (suffix test on the character list). -/
def logsGlobMatch : List String → Bool
  | ["logs", f] => ".json".data.isSuffixOf f.data
  | _ => false

/-- Records loaded by `spark.read.option("recursiveFileLookup", "true").json(songs_path)`. -/
def readSongData (fs : List SongFile) : List SongRecord :=
  (fs.filter (fun f => underSongData f.path)).flatMap SongFile.rows

/-- Records loaded by `spark.read.json(logs_path)` with the `logs/*.json` glob. -/
def readLogData (fs : List LogFile) : List LogRecord :=
  (fs.filter (fun f => logsGlobMatch f.path)).flatMap LogFile.rows

/-! ### The SQL transformations -/

/-- Projection of `songs_json` onto the `songs` columns. -/
def songProj (r : SongRecord) : SongRow :=
  ⟨r.song_id, r.title, r.artist_id, r.year, r.duration⟩

/-- CREATE TABLE songs AS SELECT song_id, title, artist_id, year, duration
FROM songs_json.  No DISTINCT: row multiplicity is preserved. -/
def songsTableOf (songs_json : List SongRecord) : List SongRow :=
  songs_json.map songProj

/-- Projection of `songs_json` onto the `artists` columns. -/
def artistProj (r : SongRecord) : ArtistRow :=
  ⟨r.artist_id, r.artist_name, r.artist_location, r.artist_latitude, r.artist_longitude⟩

/-- CREATE TABLE artists AS SELECT artist_id, artist_name AS name,
artist_location AS location, artist_latitude AS latitude, artist_longitude
AS longitude FROM songs_json. -/
def artistsTableOf (songs_json : List SongRecord) : List ArtistRow :=
  songs_json.map artistProj

/-- The WHERE clause `page = 'NextSong'`.  SQL equality never holds on
NULL, so a record with null `page` is rejected. -/
def qualifies (l : LogRecord) : Bool := decide (l.page = some "NextSong")

/-- Projection of `logs_json` onto the `users` columns. -/
def userProj (l : LogRecord) : UserRow :=
  ⟨l.userId, l.firstName, l.lastName, l.gender, l.level⟩

/-- CREATE TABLE users AS SELECT userId AS user_id, firstName AS first_name,
lastName AS last_name, gender, level FROM logs_json WHERE page = 'NextSong'.
The statement has no DISTINCT: duplicate rows are kept. -/
def usersTableOf (logs_json : List LogRecord) : List UserRow :=
  (logs_json.filter qualifies).map userProj

/-- Engine-level failures of a pipeline step. -/
inductive PipelineError where
  /-- CREATE TABLE on a table name already present in the catalog. -/
  | tableExists (t : String)
  /-- A FROM clause names a relation absent from the catalog. -/
  | missingRelation (t : String)
  /-- A Python UDF raised, e.g. `int(None)` on a NULL `ts`. -/
  | udfTypeError
  /-- `spark.read.json` raised an AnalysisException because the input
  matched no data rows, so no schema could be inferred. -/
  | unableToInferSchema (path : String)
deriving DecidableEq

/-- One row of the `time` table for a non-null timestamp `t`. -/
def timeRowOf (off t : Int) : TimeRow :=
  ⟨get_timestamp t, get_hour off t, get_day off t, get_week off t,
   get_month off t, get_year off t, get_weekday off t⟩

/-- CREATE TABLE time AS SELECT get_timestamp(ts) AS start_time, … FROM
logs_json WHERE page = 'NextSong'.  A qualifying record with null `ts`
makes the Python UDFs raise and the whole query fail. -/
def timeTableOf (off : Int) (logs_json : List LogRecord) :
    Except PipelineError (List TimeRow) :=
  (logs_json.filter qualifies).mapM fun l =>
    match l.ts with
    | some t => Except.ok (timeRowOf off t)
    | none => Except.error PipelineError.udfTypeError

/-- The first join condition: `ON t.start_time = l.ts AND l.page = 'NextSong'`.
`l.ts` NULL never equals `t.start_time`. -/
def joinTimeLog (t : TimeRow) (l : LogRecord) : Bool :=
  decide (some t.start_time = l.ts) && qualifies l

/-- The second join condition: `ON s.artist_name = l.artist`.  SQL equality
rejects the pair when either side is NULL. -/
def joinLogSong (l : LogRecord) (s : SongRecord) : Bool :=
  match s.artist_name, l.artist with
  | some a, some b => a == b
  | _, _ => false

/-- The joined triples underlying `songplays`: `FROM time AS t JOIN
logs_json AS l ON t.start_time = l.ts AND l.page = 'NextSong' JOIN
songs_json AS s ON s.artist_name = l.artist`. -/
def songplayTriples (time : List TimeRow) (logs_json : List LogRecord)
    (songs_json : List SongRecord) : List (TimeRow × LogRecord × SongRecord) :=
  time.flatMap fun t =>
    (logs_json.filter (joinTimeLog t)).flatMap fun l =>
      (songs_json.filter (joinLogSong l)).map fun s => (t, l, s)

/-- The SELECT list of the `songplays` query applied to one joined triple:
l.ts AS start_time, t.year, t.month, l.userId AS user_id, l.level,
s.song_id, s.artist_id, l.sessionId AS session_id, s.artist_location AS
location, l.userAgent AS user_agent. -/
def mkSongplay (t : TimeRow) (l : LogRecord) (s : SongRecord) : SongplayRow :=
  ⟨l.ts, t.year, t.month, l.userId, l.level, s.song_id, s.artist_id,
   l.sessionId, s.artist_location, l.userAgent⟩

/-- CREATE TABLE songplays AS (SELECT … FROM time JOIN logs_json JOIN songs_json). -/
def songplaysTableOf (time : List TimeRow) (logs_json : List LogRecord)
    (songs_json : List SongRecord) : List SongplayRow :=
  (songplayTriples time logs_json songs_json).map fun tr => mkSongplay tr.1 tr.2.1 tr.2.2

/-! ### Engine catalog and object storage -/

/-- The engine catalog: temp views (`logs_json`, `songs_json`) and the
persistent tables the pipeline creates. -/
structure Catalog where
  logs_json : Option (List LogRecord)
  songs_json : Option (List SongRecord)
  songs : Option (List SongRow)
  artists : Option (List ArtistRow)
  users : Option (List UserRow)
  time : Option (List TimeRow)
  songplays : Option (List SongplayRow)
deriving DecidableEq

/-- Object storage: one slot per parquet output location under
`output_data`. -/
structure Storage where
  songsOut : Option (List SongRow)
  artistsOut : Option (List ArtistRow)
  usersOut : Option (List UserRow)
  timesOut : Option (List TimeRow)
  songplaysOut : Option (List SongplayRow)
deriving DecidableEq

/-- A catalog with no temp view and no table registered. -/
def emptyCatalog : Catalog := ⟨none, none, none, none, none, none, none⟩

/-- Storage with nothing written yet. -/
def emptyStorage : Storage := ⟨none, none, none, none, none⟩

/-- The notebook helper `clear_my_tables`: DROP TABLE IF EXISTS for
`logs_json`, `songs_json`, `songs`, `artists`, and `users` twice — and for
no other relation. -/
def clear_my_tables (c : Catalog) : Catalog :=
  let c1 := { c with logs_json := none }
  let c2 := { c1 with songs_json := none }
  let c3 := { c2 with songs := none }
  let c4 := { c3 with artists := none }
  let c5 := { c4 with users := none }
  let c6 := { c5 with users := none }
  c6

/-- The transformer `process_song_data spark input_data output_data`:
read (schema inference fails on an input set with no data rows),
register `songs_json`, CREATE TABLE `songs` (error if it already exists),
write it, CREATE TABLE `artists`, write it. -/
def process_song_data (fs : List SongFile) (cat : Catalog) (st : Storage) :
    Except PipelineError (Catalog × Storage) :=
  let songs_df := readSongData fs
  if songs_df.isEmpty then
    Except.error (PipelineError.unableToInferSchema "song_data") else
  let cat1 := { cat with songs_json := some songs_df }
  match cat1.songs with
  | some _ => Except.error (PipelineError.tableExists "songs")
  | none =>
    let songs_table := songsTableOf songs_df
    let cat2 := { cat1 with songs := some songs_table }
    let st1 := { st with songsOut := some songs_table }
    match cat2.artists with
    | some _ => Except.error (PipelineError.tableExists "artists")
    | none =>
      let artists_table := artistsTableOf songs_df
      Except.ok ({ cat2 with artists := some artists_table },
                 { st1 with artistsOut := some artists_table })

/-- The transformer `process_log_data spark input_data output_data`:
read (schema inference fails on a glob matching no data rows), register
`logs_json`, CREATE TABLE `users` and write it, register the time UDFs,
CREATE TABLE `time` and write it, CREATE TABLE `songplays` (reading the
`songs_json` temp view) and write it. -/
def process_log_data (off : Int) (fs : List LogFile) (cat : Catalog)
    (st : Storage) : Except PipelineError (Catalog × Storage) :=
  let logs_df := readLogData fs
  if logs_df.isEmpty then
    Except.error (PipelineError.unableToInferSchema "logs") else
  let cat1 := { cat with logs_json := some logs_df }
  match cat1.users with
  | some _ => Except.error (PipelineError.tableExists "users")
  | none =>
    let users_table := usersTableOf logs_df
    let cat2 := { cat1 with users := some users_table }
    let st1 := { st with usersOut := some users_table }
    match cat2.time with
    | some _ => Except.error (PipelineError.tableExists "time")
    | none =>
      match timeTableOf off logs_df with
      | Except.error e => Except.error e
      | Except.ok time_table =>
        let cat3 := { cat2 with time := some time_table }
        let st2 := { st1 with timesOut := some time_table }
        match cat3.songplays with
        | some _ => Except.error (PipelineError.tableExists "songplays")
        | none =>
          match cat3.songs_json with
          | none => Except.error (PipelineError.missingRelation "songs_json")
          | some songs_view =>
            let songplays_table := songplaysTableOf time_table logs_df songs_view
            Except.ok ({ cat3 with songplays := some songplays_table },
                       { st2 with songplaysOut := some songplays_table })

/-- The driver `main`: `process_song_data` then `process_log_data` against
the same session state and output root. -/
def mainPipeline (off : Int) (sfs : List SongFile) (lfs : List LogFile)
    (cat : Catalog) (st : Storage) : Except PipelineError (Catalog × Storage) :=
  match process_song_data sfs cat st with
  | Except.error e => Except.error e
  | Except.ok (c, s) => process_log_data off lfs c s

/-! ### Concrete sample data used by witnesses and counterexamples -/

/-- A qualifying (`page = 'NextSong'`) log event with artist "A". -/
def sampleLog : LogRecord :=
  ⟨some "u1", some "F", some "L", some "M", some "free", some "NextSong",
   some 1000, some 7, some "UA", some "A"⟩

/-- A second qualifying log event with the same timestamp and artist as
`sampleLog` but a different user. -/
def sampleLogSameTs : LogRecord :=
  ⟨some "u2", some "G", some "K", some "F", some "paid", some "NextSong",
   some 1000, some 8, some "UB", some "A"⟩

/-- A non-qualifying log event (`page = 'Home'`). -/
def sampleLogHome : LogRecord :=
  ⟨some "u3", some "H", some "J", some "F", some "free", some "Home",
   some 2000, some 9, some "UC", some "A"⟩

/-- A song-catalog record whose `artist_name` is "A". -/
def sampleSong : SongRecord :=
  ⟨some "S1", some "T", some "AR1", some 2000, some 200, some "A",
   some "Loc", some 10, some 20⟩

/-- A song-metadata input file nested two levels below `song_data/`. -/
def sampleSongFile : SongFile := ⟨["song_data", "A", "a.json"], [sampleSong]⟩

/-- A log input file directly inside `logs/`. -/
def sampleLogFile : LogFile := ⟨["logs", "events.json"], [sampleLog]⟩

/-! ### Helper lemmas on list counting -/

theorem countP_flatMap {α β : Type} (f : α → List β) (p : β → Bool) :
    ∀ l : List α, (l.flatMap f).countP p = (l.map fun a => (f a).countP p).sum := by
  intro l
  induction l with
  | nil => rfl
  | cons a l ih => simp [List.flatMap_cons, List.countP_append, ih]

theorem sum_map_ite {α : Type} (p : α → Bool) (c : Nat) :
    ∀ l : List α, (l.map fun a => if p a then c else 0).sum = l.countP p * c := by
  intro l
  induction l with
  | nil => simp
  | cons a l ih =>
    cases h : p a <;>
      simp [List.countP_cons, h, ih, Nat.add_mul, Nat.add_comm]

theorem countP_filter_decide_eq {α : Type} [DecidableEq α] (q : α → Bool) (e : α) :
    ∀ l : List α, (l.filter q).countP (fun x => decide (x = e)) =
      if q e then l.countP (fun x => decide (x = e)) else 0 := by
  intro l
  induction l with
  | nil => simp
  | cons a l ih =>
    by_cases he : a = e
    · subst he
      cases hq : q a <;> simp [List.filter_cons, List.countP_cons, hq, ih]
    · cases hq : q a <;> simp [List.filter_cons, List.countP_cons, hq, he, ih]

/-- C10: `clear_my_tables` drops exactly the relations `logs_json`,
`songs_json`, `songs`, `artists` and `users` (the last one twice); the
`time` and `songplays` entries of the catalog are untouched, so they still
exist afterwards whenever they existed before. -/
theorem clear_my_tables_frame (c : Catalog) :
    (clear_my_tables c).time = c.time ∧
    (clear_my_tables c).songplays = c.songplays ∧
    (clear_my_tables c).logs_json = none ∧
    (clear_my_tables c).songs_json = none ∧
    (clear_my_tables c).songs = none ∧
    (clear_my_tables c).artists = none ∧
    (clear_my_tables c).users = none :=
  ⟨rfl, rfl, rfl, rfl, rfl, rfl, rfl⟩

/-- C7: song-data discovery is recursive — a file at any depth below
`song_data/` is read in full — while log discovery uses the non-recursive
glob `logs/*.json`: a `.json` file directly inside `logs/` is read, but a
file inside any subdirectory of `logs/` is not. -/
theorem discovery_asymmetry (d e : String) (rest : List String)
    (songRows : List SongRecord) (logRows logRows2 : List LogRecord)
    (f : String) (hf : ".json".data.isSuffixOf f.data = true) :
    readSongData [⟨"song_data" :: d :: rest, songRows⟩] = songRows ∧
    readLogData [⟨["logs", f], logRows⟩] = logRows ∧
    readLogData [⟨"logs" :: d :: e :: rest, logRows2⟩] = [] := by
  refine ⟨?_, ?_, ?_⟩
  · simp [readSongData, underSongData]
  · simp [readLogData, logsGlobMatch, hf]
  · simp [readLogData, logsGlobMatch]

/-- Witness for C7 at a concrete nested song file, a concrete matching log
file, and a concrete log file hidden in a subdirectory. -/
theorem discovery_asymmetry_witness :
    readSongData [⟨"song_data" :: "A" :: ["B", "x.json"], [sampleSong]⟩] = [sampleSong] ∧
    readLogData [⟨["logs", "events.json"], [sampleLog]⟩] = [sampleLog] ∧
    readLogData [⟨"logs" :: "A" :: "y.json" :: ["B", "x.json"], [sampleLog]⟩] = [] :=
  discovery_asymmetry "A" "y.json" ["B", "x.json"] [sampleSong] [sampleLog] [sampleLog]
    "events.json" (by decide)

/-- C8 counterexample: on an empty `song_data` input set, `spark.read.json`
finds no data rows, schema inference fails, and `process_song_data` raises
instead of completing — it does not write empty `songs`/`artists`
datasets, even from a completely fresh engine state. -/
theorem process_song_data_empty_input_cex :
    process_song_data [] emptyCatalog emptyStorage =
      Except.error (PipelineError.unableToInferSchema "song_data") := by
  rfl

/-- C8 amended: `process_song_data` on a `song_data` input set with no
data rows does raise: the read step fails schema inference and the run
aborts there, before registering `songs_json`, creating any table, or
writing anything — whatever the catalog and the output locations held
before, no empty `songs` or `artists` dataset is ever written. -/
theorem process_song_data_empty_input_errors (fs : List SongFile)
    (cat : Catalog) (st : Storage) (hfs : readSongData fs = []) :
    process_song_data fs cat st =
      Except.error (PipelineError.unableToInferSchema "song_data") := by
  unfold process_song_data
  rw [hfs]
  rfl

/-- Witness for C8: a concrete input set whose only file lies outside
`song_data/` also loads zero rows, and the run aborts at the read. -/
theorem process_song_data_empty_input_errors_witness :
    process_song_data [⟨["other", "f.json"], [sampleSong]⟩] emptyCatalog emptyStorage =
      Except.error (PipelineError.unableToInferSchema "song_data") :=
  process_song_data_empty_input_errors [⟨["other", "f.json"], [sampleSong]⟩]
    emptyCatalog emptyStorage (by rfl)

/-- C4: a log event whose `page` is not the literal 'NextSong' contributes
no row to `users`, `time` or `songplays`: inserting such an event anywhere
in the log dataset leaves all three derivations unchanged. -/
theorem non_nextsong_contributes_nothing (off : Int) (e : LogRecord)
    (he : qualifies e = false) (l1 l2 : List LogRecord) :
    usersTableOf (l1 ++ e :: l2) = usersTableOf (l1 ++ l2) ∧
    timeTableOf off (l1 ++ e :: l2) = timeTableOf off (l1 ++ l2) ∧
    ∀ (time : List TimeRow) (songs : List SongRecord),
      songplayTriples time (l1 ++ e :: l2) songs = songplayTriples time (l1 ++ l2) songs := by
  have hfq : List.filter qualifies (l1 ++ e :: l2) = List.filter qualifies (l1 ++ l2) := by
    simp [List.filter_append, List.filter_cons, he]
  have hjt : ∀ t : TimeRow,
      List.filter (joinTimeLog t) (l1 ++ e :: l2) = List.filter (joinTimeLog t) (l1 ++ l2) := by
    intro t
    simp [List.filter_append, List.filter_cons, joinTimeLog, he]
  refine ⟨?_, ?_, ?_⟩
  · unfold usersTableOf
    rw [hfq]
  · unfold timeTableOf
    rw [hfq]
  · intro time songs
    simp only [songplayTriples, hjt]

/-- Witness for C4: inserting the concrete 'Home' event before a concrete
'NextSong' event changes none of the three tables. -/
theorem non_nextsong_contributes_nothing_witness :
    usersTableOf ([] ++ sampleLogHome :: [sampleLog]) = usersTableOf ([] ++ [sampleLog]) ∧
    timeTableOf 0 ([] ++ sampleLogHome :: [sampleLog]) = timeTableOf 0 ([] ++ [sampleLog]) ∧
    ∀ (time : List TimeRow) (songs : List SongRecord),
      songplayTriples time ([] ++ sampleLogHome :: [sampleLog]) songs =
        songplayTriples time ([] ++ [sampleLog]) songs :=
  non_nextsong_contributes_nothing 0 sampleLogHome (by decide) [] [sampleLog]

/-- C6: every `songplays` row is the image of a joined (time, log, song)
triple, and its `location` column is exactly the `artist_location` of the
song-catalog row of that triple — no log-event field. -/
theorem songplays_location_from_catalog (time : List TimeRow)
    (logs : List LogRecord) (songs : List SongRecord) (r : SongplayRow)
    (hr : r ∈ songplaysTableOf time logs songs) :
    ∃ t l s, (t, l, s) ∈ songplayTriples time logs songs ∧
      r = mkSongplay t l s ∧ r.location = s.artist_location := by
  unfold songplaysTableOf at hr
  obtain ⟨tr, htr, hmk⟩ := List.mem_map.mp hr
  exact ⟨tr.1, tr.2.1, tr.2.2, htr, hmk.symm, by rw [← hmk]; rfl⟩

/-- Witness for C6 at a concrete one-row join. -/
theorem songplays_location_from_catalog_witness :
    ∃ t l s,
      (t, l, s) ∈ songplayTriples [timeRowOf 0 1000] [sampleLog] [sampleSong] ∧
      mkSongplay (timeRowOf 0 1000) sampleLog sampleSong = mkSongplay t l s ∧
      (mkSongplay (timeRowOf 0 1000) sampleLog sampleSong).location = s.artist_location :=
  songplays_location_from_catalog [timeRowOf 0 1000] [sampleLog] [sampleSong]
    (mkSongplay (timeRowOf 0 1000) sampleLog sampleSong) (by decide)

/-- C9: the inner join `ON s.artist_name = l.artist` never matches a NULL:
any joined triple has a non-null log `artist` and a non-null catalog
`artist_name`, so a log event with null artist contributes no `songplays`
row even when the catalog has rows with null `artist_name`. -/
theorem songplays_no_null_artist (time : List TimeRow)
    (logs : List LogRecord) (songs : List SongRecord)
    (t : TimeRow) (l : LogRecord) (s : SongRecord)
    (h : (t, l, s) ∈ songplayTriples time logs songs) :
    l.artist ≠ none ∧ s.artist_name ≠ none := by
  unfold songplayTriples at h
  simp only [List.mem_flatMap, List.mem_map, List.mem_filter] at h
  obtain ⟨t', -, l', ⟨-, hjl⟩, s', ⟨-, hjs⟩, heq⟩ := h
  simp only [Prod.mk.injEq] at heq
  obtain ⟨-, hl, hs⟩ := heq
  subst hl; subst hs
  revert hjs
  unfold joinLogSong
  cases s'.artist_name <;> cases l'.artist <;> simp

/-- Witness for C9 at a concrete joined triple. -/
theorem songplays_no_null_artist_witness :
    sampleLog.artist ≠ none ∧ sampleSong.artist_name ≠ none :=
  songplays_no_null_artist [timeRowOf 0 1000] [sampleLog] [sampleSong]
    (timeRowOf 0 1000) sampleLog sampleSong (by decide)

/-- Modelled from the spec wording of C1 only, for comparison: the
distinct-by-row projection of the qualifying log records (each distinct row
kept once). -/
def usersTableSpecDistinct (logs_json : List LogRecord) : List UserRow :=
  ((logs_json.filter qualifies).map userProj).dedup

/-- C1 counterexample: the source `CREATE TABLE users` statement has no
DISTINCT, so two identical qualifying events yield two identical `users`
rows, differing from the distinct-by-row projection the claim describes. -/
theorem users_not_distinct_cex :
    usersTableOf [sampleLog, sampleLog] ≠
      usersTableSpecDistinct [sampleLog, sampleLog] := by
  decide

/-- C1 amended: `users` is the projection {user_id:=userId,
first_name:=firstName, last_name:=lastName, gender, level} of the log
records restricted to `page = 'NextSong'` with multiplicity preserved (no
deduplication): each row occurs in `users` exactly as many times as there
are qualifying events projecting to it, and hence no row comes from an
event with `page != 'NextSong'`. -/
theorem users_projection_multiplicity (logs : List LogRecord) (u : UserRow) :
    (usersTableOf logs).countP (fun r => decide (r = u)) =
      logs.countP (fun l => qualifies l && decide (userProj l = u)) := by
  unfold usersTableOf
  rw [List.countP_map, List.countP_filter]
  congr 1
  funext l
  simp [Function.comp, Bool.and_comm]

/-- C3 amended: in `songplays`, the number of joined triples whose log
component is the event `e` equals (number of `time` rows satisfying the
first join condition against `e`) × (multiplicity of `e` in the log
dataset) × (number of catalog rows whose `artist_name` exactly equals
`e`'s artist).  In particular an event with no exact artist match
contributes zero rows, and an event whose `ts` is shared by `m` qualifying
events contributes `m × k` rows (the `time`-side fan-out), not `k`. -/
theorem songplays_contribution_count (time : List TimeRow)
    (logs : List LogRecord) (songs : List SongRecord) (e : LogRecord) :
    (songplayTriples time logs songs).countP (fun tr => decide (tr.2.1 = e)) =
      time.countP (fun t => joinTimeLog t e) *
        (logs.countP (fun l => decide (l = e)) *
          songs.countP (fun s => joinLogSong e s)) := by
  unfold songplayTriples
  rw [countP_flatMap]
  have inner : ∀ t : TimeRow,
      ((logs.filter (joinTimeLog t)).flatMap fun l =>
          (songs.filter (joinLogSong l)).map fun s => (t, l, s)).countP
          (fun tr => decide (tr.2.1 = e)) =
        if joinTimeLog t e then
          logs.countP (fun l => decide (l = e)) *
            songs.countP (fun s => joinLogSong e s)
        else 0 := by
    intro t
    rw [countP_flatMap]
    rw [List.map_congr_left (g := fun l =>
      if decide (l = e) = true then songs.countP (fun s => joinLogSong e s) else 0)]
    · rw [sum_map_ite, countP_filter_decide_eq]
      cases hte : joinTimeLog t e <;> simp
    · intro l _
      rw [List.countP_map]
      by_cases hle : l = e
      · subst hle
        simp [Function.comp, List.countP_eq_length_filter]
      · simp [Function.comp, hle]
  rw [List.map_congr_left (g := fun t =>
    if joinTimeLog t e = true then
      logs.countP (fun l => decide (l = e)) * songs.countP (fun s => joinLogSong e s)
    else 0)]
  · rw [sum_map_ite]
  · intro t _
    exact inner t

/-- C3 counterexample: two qualifying events share `ts = 1000`, the artist
"A" matches exactly one catalog row (`k = 1`), the pipeline `time` table
for those logs has two rows with that timestamp, and the event
`sampleLog` contributes 2 songplays triples, not `k = 1`. -/
theorem songplays_fanout_cex :
    timeTableOf 0 [sampleLog, sampleLogSameTs] =
      Except.ok [timeRowOf 0 1000, timeRowOf 0 1000] ∧
    ([sampleSong].filter (joinLogSong sampleLog)).length = 1 ∧
    (songplayTriples [timeRowOf 0 1000, timeRowOf 0 1000]
        [sampleLog, sampleLogSameTs] [sampleSong]).countP
      (fun tr => decide (tr.2.1 = sampleLog)) = 2 := by
  exact ⟨rfl, by decide, by decide⟩

/-- C5 counterexample: epoch millisecond 1541207953796 is 2018-11-03
01:19:13 UTC, a Saturday; under the code's 0 = Monday convention
`get_weekday` yields 5 there (with a UTC-local clock), not the claimed
Sunday index 6. -/
theorem weekday_fixed_ts_cex :
    get_weekday 0 1541207953796 = 5 ∧ ¬ get_weekday 0 1541207953796 = 6 := by
  decide

/-- C5 amended: `get_timestamp` is the identity on the integral `ts` (so
`start_time` is `ts` unchanged, still in milliseconds); `get_weekday`
follows the 0 = Monday convention (1970-01-05, the first Monday after the
epoch, maps to 0); and for the fixed input `ts = 1541207953796` — a
Saturday, not a Sunday — it returns 5 under a UTC local clock and never
returns 6 for any real-world timezone offset (UTC-12h … UTC+14h). -/
theorem time_udfs_fixed_ts (x : Int) :
    get_timestamp x = x ∧
    get_weekday 0 345600000 = 0 ∧
    get_weekday 0 1541207953796 = 5 ∧
    ∀ off : Int, -43200 ≤ off → off ≤ 50400 →
      ¬ get_weekday off 1541207953796 = 6 := by
  refine ⟨rfl, by decide, by decide, ?_⟩
  intro off h1 h2
  unfold get_weekday localDays localSeconds pySeconds
  have hp : Int.fdiv 1541207953796 1000 = 1541207953 := by decide
  rw [hp, Int.fdiv_eq_ediv _ (by norm_num)]
  have hlow : (17837 : Int) ≤ (1541207953 + off) / 86400 := by
    have h := Int.ediv_le_ediv (a := (1541164753 : Int))
      (b := 1541207953 + off) (c := 86400) (by norm_num) (by omega)
    have he : (1541164753 : Int) / 86400 = 17837 := by decide
    omega
  have hhigh : (1541207953 + off) / 86400 ≤ (17838 : Int) := by
    have h := Int.ediv_le_ediv (a := (1541207953 + off))
      (b := (1541258353 : Int)) (c := 86400) (by norm_num) (by omega)
    have he : (1541258353 : Int) / 86400 = 17838 := by decide
    omega
  have hd : (1541207953 + off) / 86400 = 17837 ∨
      (1541207953 + off) / 86400 = 17838 := by omega
  rcases hd with hd | hd <;> rw [hd] <;> decide

/-- Witness for C5: the no-Sunday clause applied at the UTC offset. -/
theorem time_udfs_fixed_ts_witness : ¬ get_weekday 0 1541207953796 = 6 :=
  (time_udfs_fixed_ts 0).2.2.2 0 (by norm_num) (by norm_num)

/-- Both reads of a pipeline run abort with a schema-inference error when
they load no rows, so a successful run loads rows from both inputs. -/
theorem mainPipeline_empty_read_errors (off : Int) (sfs : List SongFile)
    (lfs : List LogFile) (st : Storage) :
    ((readSongData sfs).isEmpty = true →
      mainPipeline off sfs lfs emptyCatalog st =
        Except.error (PipelineError.unableToInferSchema "song_data")) ∧
    ((readSongData sfs).isEmpty = false → (readLogData lfs).isEmpty = true →
      mainPipeline off sfs lfs emptyCatalog st =
        Except.error (PipelineError.unableToInferSchema "logs")) := by
  constructor
  · intro hs
    unfold mainPipeline process_song_data
    simp only [hs]
    rfl
  · intro hs hl
    unfold mainPipeline process_song_data process_log_data emptyCatalog
    simp only [hs, hl]
    rfl

/-- Normal form of a pipeline run that starts from a cleared catalog and
loads at least one row from each input: the final catalog and the five
written outputs are functions of the input files alone (the prior storage
contents are fully overwritten). -/
theorem mainPipeline_emptyCatalog (off : Int) (sfs : List SongFile)
    (lfs : List LogFile) (st : Storage)
    (hs : (readSongData sfs).isEmpty = false)
    (hl : (readLogData lfs).isEmpty = false) :
    mainPipeline off sfs lfs emptyCatalog st =
      match timeTableOf off (readLogData lfs) with
      | Except.error e => Except.error e
      | Except.ok time_table =>
          Except.ok
            (⟨some (readLogData lfs), some (readSongData sfs),
              some (songsTableOf (readSongData sfs)),
              some (artistsTableOf (readSongData sfs)),
              some (usersTableOf (readLogData lfs)),
              some time_table,
              some (songplaysTableOf time_table (readLogData lfs) (readSongData sfs))⟩,
             ⟨some (songsTableOf (readSongData sfs)),
              some (artistsTableOf (readSongData sfs)),
              some (usersTableOf (readLogData lfs)),
              some time_table,
              some (songplaysTableOf time_table (readLogData lfs) (readSongData sfs))⟩) := by
  unfold mainPipeline process_song_data process_log_data emptyCatalog
  simp only [hs, hl]
  rfl

/-- The result of a first pipeline run on the sample inputs. -/
def firstRunResult : Except PipelineError (Catalog × Storage) :=
  mainPipeline 0 [sampleSongFile] [sampleLogFile] emptyCatalog emptyStorage

/-- The state left by that first run. -/
def firstRunState : Catalog × Storage :=
  firstRunResult.toOption.getD (emptyCatalog, emptyStorage)

/-- C2 counterexample: the first run of the driver on the sample inputs
succeeds, but the second run against the state it left fails at `CREATE
TABLE songs` with a table-already-exists error, because `main` never drops
the tables it created. -/
theorem pipeline_rerun_cex :
    firstRunResult = Except.ok firstRunState ∧
    mainPipeline 0 [sampleSongFile] [sampleLogFile] firstRunState.1 firstRunState.2 =
      Except.error (PipelineError.tableExists "songs") :=
  ⟨rfl, rfl⟩

/-- C2 amended: a re-run only works from a cleared catalog, and then the
run is deterministic and independent of whatever the output locations
held before — two successful runs with the same inputs from a cleared
catalog produce identical catalogs and identical output contents, which is
the idempotent-overwrite part of the claim. -/
theorem pipeline_deterministic_from_cleared_catalog (off : Int)
    (sfs : List SongFile) (lfs : List LogFile) (st1 st2 : Storage)
    (out1 out2 : Catalog × Storage)
    (h1 : mainPipeline off sfs lfs emptyCatalog st1 = Except.ok out1)
    (h2 : mainPipeline off sfs lfs emptyCatalog st2 = Except.ok out2) :
    out1 = out2 := by
  cases hs : (readSongData sfs).isEmpty with
  | true =>
    rw [(mainPipeline_empty_read_errors off sfs lfs st1).1 hs] at h1
    simp at h1
  | false => ?_
  cases hl : (readLogData lfs).isEmpty with
  | true =>
    rw [(mainPipeline_empty_read_errors off sfs lfs st1).2 hs hl] at h1
    simp at h1
  | false => ?_
  rw [mainPipeline_emptyCatalog off sfs lfs st1 hs hl] at h1
  rw [mainPipeline_emptyCatalog off sfs lfs st2 hs hl] at h2
  cases htt : timeTableOf off (readLogData lfs) with
  | error e =>
    rw [htt] at h1
    simp at h1
  | ok tt =>
    rw [htt] at h1 h2
    simp only [Except.ok.injEq] at h1 h2
    rw [← h1, ← h2]

/-- Prior storage contents that differ from the empty storage. -/
def altStorage : Storage := ⟨some [songProj sampleSong], none, none, none, some []⟩

/-- The same run as `firstRunResult` but over pre-existing outputs. -/
def altRunResult : Except PipelineError (Catalog × Storage) :=
  mainPipeline 0 [sampleSongFile] [sampleLogFile] emptyCatalog altStorage

/-- The state left by the run over pre-existing outputs. -/
def altRunState : Catalog × Storage :=
  altRunResult.toOption.getD (emptyCatalog, emptyStorage)

/-- Witness for C2: the concrete sample run from empty storage and from
storage holding stale outputs end in the same state. -/
theorem pipeline_deterministic_witness : firstRunState = altRunState :=
  pipeline_deterministic_from_cleared_catalog 0 [sampleSongFile] [sampleLogFile]
    emptyStorage altStorage firstRunState altRunState (by rfl) (by rfl)
